import Mathlib

/-!
# NetworkAnalyzerSuite — verification of spec claims

Shallow embedding of the parts of the repository that the claims touch:

* `src/scanner/network_scanner.py` — `perform_arp_scan`
* `src/visualizer/topology_visualizer.py` — `TopologyVisualizer.detect_gateway`,
  `classify_device`, `create_graph_from_scan_data`, `create_topology`
* `src/sniffer/packet_sniffer.py` — `PacketSniffer.packet_handler`,
  `start_sniffing`, `print_stats`, `stop_sniffing`

I/O-producing collaborators (scapy's `srp`, `socket`, matplotlib, the log)
are modelled as explicit inputs: the list of ARP replies received, the list
of locally bound IPs, and the list of captured frames.  Python `dict`s of
graph-node attributes become a record; Python strings become `String`; raw
payload bytes become `List Nat`.
-/

namespace NetworkAnalyzer

/-- Python `in` on strings (substring containment), as a Bool. -/
def py_in (pat s : String) : Bool := decide (pat.data <:+: s.data)

/-- Python `str.lower()` restricted to ASCII, which is how the source uses it
(vendor keyword matching). -/
def py_lower (s : String) : String := ⟨s.data.map Char.toLower⟩

/-- Worker for `py_split`: split a character list at a separator, keeping
empty fields, as Python `str.split(sep)` does. -/
def py_split_aux (sep : Char) : List Char → List Char → List (List Char)
  | [], acc => [acc.reverse]
  | c :: rest, acc =>
      if c = sep then acc.reverse :: py_split_aux sep rest []
      else py_split_aux sep rest (c :: acc)

/-- Python `str.split(sep)` for a one-character separator
(`ip.split('.')`). -/
def py_split (s : String) (sep : Char) : List String :=
  (py_split_aux sep s.data []).map fun l => ⟨l⟩

/-- Python `sep.join(parts)` (`'.'.join(...)`). -/
def py_join (sep : String) : List String → String
  | [] => ""
  | [x] => x
  | x :: rest => x ++ sep ++ py_join sep rest

/-! ## `src/scanner/network_scanner.py` -/

/-- One device record, as produced by the scanner (`{'ip': ..., 'mac': ...}`)
and consumed by the visualizer (which additionally reads an optional
`vendor` key via `device.get('vendor', 'Unknown')`). -/
structure Device where
  ip : String
  mac : String
  vendor : Option String
deriving DecidableEq, Repr

/-- One ARP reply as seen by `perform_arp_scan`'s loop: the `received`
packet's `psrc` (source IP) and `hwsrc` (source MAC). -/
structure ArpReply where
  psrc : String
  hwsrc : String
deriving DecidableEq, Repr

/-- `perform_arp_scan`, from the point where scapy's `srp` has returned the
answered list: `for sent, received in result: devices.append({'ip':
received.psrc, 'mac': received.hwsrc})`.  The network I/O is modelled by
taking the reply list as input. -/
def perform_arp_scan (result : List ArpReply) : List Device :=
  result.foldl (fun devices r => devices ++ [⟨r.psrc, r.hwsrc, none⟩]) []

/-! ## `src/visualizer/topology_visualizer.py` -/

/-- `TopologyVisualizer.detect_gateway`: candidate is the first device's
first three octets followed by `.1`; if that candidate is among the scanned
IPs it wins, else the first device's IP; `"192.168.1.1"` on empty input. -/
def detect_gateway (scan_data : List Device) : String :=
  match scan_data with
  | [] => "192.168.1.1"
  | first :: _ =>
      let base := py_join "." ((py_split first.ip '.').take 3)
      let candidate := base ++ ".1"
      let all_ips := scan_data.map Device.ip
      if candidate ∈ all_ips then candidate else first.ip

/-- `TopologyVisualizer.classify_device`: role of one device node. -/
def classify_device (ip mac vendor gateway_ip : String) (local_ips : List String) :
    String :=
  if ip = gateway_ip then "gateway"
  else if ip ∈ local_ips then "local"
  else if ["vmware", "virtualbox", "hyper-v"].any (fun kw => py_in kw (py_lower vendor)) then "vm"
  else if ["apple", "samsung", "google", "intel", "hp", "dell"].any
      (fun v => py_in v (py_lower vendor)) then "device"
  else
    let _ := mac
    "unknown"

/-- Attribute record of a networkx node as this code sets it:
`node_type`, `ip`, `mac`, `label` are always set; `vendor` only on device
nodes (the gateway's initial `add_node` omits it). -/
structure NodeData where
  node_type : String
  ip : String
  mac : String
  vendor : Option String
  label : String
deriving DecidableEq, Repr

/-- A networkx `Graph`: nodes keyed by id carrying attributes (`none` when a
node was auto-created by `add_edge` with no attributes), and an unordered
simple edge list that may contain self-loops. -/
structure Graph where
  nodes : List (String × Option NodeData)
  edges : List (String × String)
deriving DecidableEq, Repr

/-- `networkx.Graph.add_node`: insert, or overwrite the attributes of an
existing node with the same id. -/
def Graph.add_node (G : Graph) (id : String) (d : NodeData) : Graph :=
  if id ∈ G.nodes.map Prod.fst then
    { G with nodes := G.nodes.map (fun p => if p.1 = id then (p.1, some d) else p) }
  else
    { G with nodes := G.nodes ++ [(id, some d)] }

/-- `networkx.Graph.add_edge`: auto-create missing endpoint nodes (with no
attributes), then add the undirected edge unless already present; `u = v`
gives a self-loop, which networkx's `Graph` allows. -/
def Graph.add_edge (G : Graph) (u v : String) : Graph :=
  let ns₁ := if u ∈ G.nodes.map Prod.fst then G.nodes else G.nodes ++ [(u, none)]
  let ns₂ := if v ∈ ns₁.map Prod.fst then ns₁ else ns₁ ++ [(v, none)]
  let es :=
    if (u, v) ∈ G.edges ∨ (v, u) ∈ G.edges then G.edges else G.edges ++ [(u, v)]
  ⟨ns₂, es⟩

/-- Python `str.strip()` (whitespace trim), used when building node labels. -/
def py_strip (s : String) : String :=
  ⟨(s.data.dropWhile Char.isWhitespace).reverse.dropWhile Char.isWhitespace |>.reverse⟩

/-- The label built for a device node:
`f"{ip}\n{vendor}\n{mac[:8]}...".strip()`. -/
def device_label (ip vendor mac : String) : String :=
  py_strip (ip ++ "\n" ++ vendor ++ "\n" ++ ⟨mac.data.take 8⟩ ++ "...")

/-- The attributes `create_graph_from_scan_data` gives one scanned device's
node. -/
def device_node_data (d : Device) (gateway_ip : String) (local_ips : List String) :
    NodeData :=
  let vendor := d.vendor.getD "Unknown"
  { node_type := classify_device d.ip d.mac vendor gateway_ip local_ips
    ip := d.ip
    mac := d.mac
    vendor := some vendor
    label := device_label d.ip vendor d.mac }

/-- The attributes given to the initially added gateway node. -/
def gateway_node_data (gateway_ip : String) : NodeData :=
  { node_type := "gateway"
    ip := gateway_ip
    mac := "Gateway"
    vendor := none
    label := "Gateway\n" ++ gateway_ip }

/-- `TopologyVisualizer.create_graph_from_scan_data`: add the gateway node,
then for each device add its node and an edge to the gateway.
`detect_local_ips` performs socket I/O and is modelled by the `local_ips`
input. -/
def create_graph_from_scan_data (scan_data : List Device) (local_ips : List String) :
    Graph :=
  let gateway_ip := detect_gateway scan_data
  let G0 := Graph.add_node ⟨[], []⟩ gateway_ip (gateway_node_data gateway_ip)
  scan_data.foldl
    (fun G d =>
      (G.add_node d.ip (device_node_data d gateway_ip local_ips)).add_edge gateway_ip d.ip)
    G0

/-- The error `create_topology` raises on empty input
(`raise ValueError("No scan data provided!")`); the spec names it
`EmptyInput`. -/
inductive BuildError where
  | emptyInput
deriving DecidableEq, Repr

/-- `TopologyVisualizer.create_topology` up to graph construction: raises on
empty scan data, else builds the graph (the subsequent matplotlib rendering
and file writing are external collaborators). -/
def create_topology (scan_data : List Device) (local_ips : List String) :
    Except BuildError Graph :=
  if scan_data = [] then .error .emptyInput
  else .ok (create_graph_from_scan_data scan_data local_ips)

/-! ## `src/sniffer/packet_sniffer.py` -/

/-- `bytes.decode(errors='ignore')`, restricted to the ASCII plane: bytes
below 128 decode to their character, other bytes are dropped rather than
raising.  (The HTTP tokens the classifier looks for are ASCII; what matters
to the claims is that this decode is total.) -/
def decode_ignore (load : List Nat) : String :=
  ⟨load.filterMap (fun b => if b < 128 then some (Char.ofNat b) else none)⟩

/-- Python's universal-newlines line boundaries used by `str.splitlines`
(other than the two-character `"\r\n"`, handled separately). -/
def py_linebreak (c : Char) : Bool :=
  c = '\n' || c = '\r' || c = '\x0b' || c = '\x0c' ||
  c = '\x1c' || c = '\x1d' || c = '\x1e' || c = '\x85' ||
  c = Char.ofNat 8232 || c = Char.ofNat 8233

/-- Worker for `py_splitlines`: accumulates the current line (reversed);
`skipNL` records that the previous character was `'\r'`, so that a
following `'\n'` is part of the same `"\r\n"` boundary. -/
def py_splitlines_go : Bool → List Char → List Char → List (List Char)
  | _, [], acc => if acc.isEmpty then [] else [acc.reverse]
  | skipNL, c :: rest, acc =>
      if skipNL && c == '\n' then py_splitlines_go false rest acc
      else if c = '\r' then acc.reverse :: py_splitlines_go true rest []
      else if py_linebreak c then acc.reverse :: py_splitlines_go false rest []
      else py_splitlines_go false rest (c :: acc)

/-- Python `str.splitlines()`: no trailing empty line for a trailing
terminator, and `"".splitlines() == []`. -/
def py_splitlines (s : String) : List String :=
  (py_splitlines_go false s.data []).map fun l => ⟨l⟩

/-- `any(method in data for method in ['GET', 'POST', 'HTTP'])`. -/
def contains_http_token (data : String) : Bool :=
  ["GET", "POST", "HTTP"].any (fun method => py_in method data)

/-- The body of the `try:` block guarding the HTTP sub-parse, with the
exception channel explicit: decode the raw load permissively, and when an
HTTP token is present take the payload's first line
(`data.splitlines()[0]`, whose indexing is the one operation that could
raise an `IndexError`).  Returns the text to append to the summary. -/
def http_try (load : List Nat) : Except Unit String :=
  if contains_http_token (decode_ignore load) then
    match (py_splitlines (decode_ignore load)).head? with
    | some line => .ok (" [HTTP] " ++ line)
    | none => .error ()
  else .ok ""

/-- The `except Exception: pass` around the HTTP sub-parse: a failure is
swallowed and contributes nothing to the summary. -/
def http_part (load : List Nat) : String :=
  match http_try load with
  | .ok s => s
  | .error _ => ""

/-- One captured frame, decoded: the results of the `haslayer` / field
accesses `packet_handler` performs, resolved at parse time.  `raw_load` is
`some` exactly when the frame has a `Raw` payload layer, `has_dns` models
`haslayer(DNS)`, `len` is `len(packet)`. -/
structure Frame where
  hasIP : Bool
  src : String
  dst : String
  hasTCP : Bool
  tcp_sport : Nat
  tcp_dport : Nat
  raw_load : Option (List Nat)
  hasUDP : Bool
  udp_sport : Nat
  udp_dport : Nat
  has_dns : Bool
  hasICMP : Bool
  icmp_type : Nat
  len : Nat
deriving Repr

/-- The fixed ICMP type-name lookup `icmp_types.get(icmp.type, '')`. -/
def icmp_type_name (t : Nat) : String :=
  if t = 0 then "Echo Reply"
  else if t = 3 then "Dest Unreachable"
  else if t = 8 then "Echo Request"
  else if t = 11 then "Time Exceeded"
  else ""

/-- The mutable counters of a `PacketSniffer` session
(`self.protocol_stats`). -/
structure ProtocolStats where
  tcp : Nat
  udp : Nat
  icmp : Nat
  other : Nat
deriving DecidableEq, Repr

/-- `sum(stats.values())`. -/
def ProtocolStats.sum (s : ProtocolStats) : Nat :=
  s.tcp + s.udp + s.icmp + s.other

/-- The session state a `PacketSniffer` instance mutates. -/
structure SnifferState where
  packet_count : Nat
  protocol_stats : ProtocolStats
  captured_packets : List Frame
  running : Bool

/-- `summary = f"TCP {src_ip}:{tcp.sport} -> {dst_ip}:{tcp.dport}"`. -/
def tcp_base_summary (p : Frame) : String :=
  "TCP " ++ p.src ++ ":" ++ toString p.tcp_sport ++
    " -> " ++ p.dst ++ ":" ++ toString p.tcp_dport

/-- What the port-80 guard adds to the TCP summary:
`if tcp.dport == 80 or tcp.sport == 80:` then, when a `Raw` layer is
present, the guarded HTTP sub-parse. -/
def http_sel (p : Frame) : String :=
  if p.tcp_dport = 80 ∨ p.tcp_sport = 80 then
    match p.raw_load with
    | some load => http_part load
    | none => ""
  else ""

/-- `http_sel` with the sub-parse's exception channel left open (no
`except ... pass`): used to state that a sub-parse failure never escapes
`packet_handler`. -/
def http_sel_exc (p : Frame) : Except Unit String :=
  if p.tcp_dport = 80 ∨ p.tcp_sport = 80 then
    match p.raw_load with
    | some load => http_try load
    | none => .ok ""
  else .ok ""

/-- `if tcp.dport == 443 or tcp.sport == 443: summary += " [HTTPS]"`. -/
def https_tag (p : Frame) : String :=
  if p.tcp_dport = 443 ∨ p.tcp_sport = 443 then " [HTTPS]" else ""

/-- The UDP branch's summary, with the `[DNS Query]` tag when
`packet.haslayer(DNS)`. -/
def udp_summary (p : Frame) : String :=
  "UDP " ++ p.src ++ ":" ++ toString p.udp_sport ++
    " -> " ++ p.dst ++ ":" ++ toString p.udp_dport ++
    (if p.has_dns then " [DNS Query]" else "")

/-- The ICMP branch's summary. -/
def icmp_summary (p : Frame) : String :=
  "ICMP " ++ p.src ++ " -> " ++ p.dst ++ " Type: " ++
    toString p.icmp_type ++ " (" ++ icmp_type_name p.icmp_type ++ ")"

/-- The summary for an IP frame that is neither TCP, UDP nor ICMP. -/
def other_ip_summary (p : Frame) : String :=
  p.src ++ " -> " ++ p.dst ++ " (Other Protocol)"

/-- The summary for a frame without an IP layer:
`f"Unknown Packet ({len(packet)} bytes)"`. -/
def no_ip_summary (p : Frame) : String :=
  "Unknown Packet (" ++ toString p.len ++ " bytes)"

/-- `PacketSniffer.packet_handler`: increments the packet count, classifies
the frame through the `haslayer` branch chain, mutating exactly the
matching protocol counter and building the summary line, and appends the
frame to the capture buffer.  Returns the new state together with the
protocol tag and summary the handler logs (the logging itself and the
every-10th-packet `print_stats` call are I/O). -/
def packet_handler (st : SnifferState) (packet : Frame) : SnifferState × String × String :=
  let count := st.packet_count + 1
  let stats := st.protocol_stats
  let r : String × ProtocolStats × String :=
    if packet.hasIP then
      if packet.hasTCP then
        ("TCP", { stats with tcp := stats.tcp + 1 },
          tcp_base_summary packet ++ http_sel packet ++ https_tag packet)
      else if packet.hasUDP then
        ("UDP", { stats with udp := stats.udp + 1 }, udp_summary packet)
      else if packet.hasICMP then
        ("ICMP", { stats with icmp := stats.icmp + 1 }, icmp_summary packet)
      else
        ("Other", { stats with other := stats.other + 1 }, other_ip_summary packet)
    else
      ("Other", { stats with other := stats.other + 1 }, no_ip_summary packet)
  ({ st with
      packet_count := count
      protocol_stats := r.2.1
      captured_packets := st.captured_packets ++ [packet] },
    r.1, r.2.2)

/-- The tag-and-summary part of `packet_handler` with the optional HTTP
sub-parse's exception channel left open instead of swallowed: if the
sub-parse fails, this classifier propagates the failure.  Comparing
`packet_handler` against it expresses that the real handler never lets
such a failure escape. -/
def classify_exc (p : Frame) : Except Unit (String × String) :=
  if p.hasIP then
    if p.hasTCP then
      match http_sel_exc p with
      | .ok http => .ok ("TCP", tcp_base_summary p ++ http ++ https_tag p)
      | .error e => .error e
    else if p.hasUDP then .ok ("UDP", udp_summary p)
    else if p.hasICMP then .ok ("ICMP", icmp_summary p)
    else .ok ("Other", other_ip_summary p)
  else .ok ("Other", no_ip_summary p)

/-- The state reset `start_sniffing` performs before opening the capture:
`self.running = True`, `self.packet_count = 0`,
`self.protocol_stats = dict(TCP=0, UDP=0, ICMP=0, Other=0)`,
`self.captured_packets = []`. -/
def start_sniffing (st : SnifferState) : SnifferState :=
  { st with
      running := true
      packet_count := 0
      protocol_stats := ⟨0, 0, 0, 0⟩
      captured_packets := [] }

/-- A capture session delivering a sequence of frames to the handler. -/
def process_frames (st : SnifferState) (frames : List Frame) : SnifferState :=
  frames.foldl (fun s f => (packet_handler s f).1) st

/-- The denominator `print_stats` divides by:
`total = self.packet_count if self.packet_count > 0 else 1`. -/
def print_stats_total (packet_count : Nat) : Nat :=
  if packet_count > 0 then packet_count else 1

/-- One percentage line of `print_stats`: `pc = (count / total) * 100`. -/
def print_stats_pc (count packet_count : Nat) : ℚ :=
  ((count : ℚ) / (print_stats_total packet_count : ℚ)) * 100

/-- One percentage line of `stop_sniffing`'s final log:
`pc = (count / self.packet_count) * 100 if self.packet_count else 0`. -/
def stop_sniffing_pc (count packet_count : Nat) : ℚ :=
  if packet_count ≠ 0 then ((count : ℚ) / (packet_count : ℚ)) * 100 else 0

/-- A node's attribute dictionary marks it as a gateway node. -/
def is_gateway_node : Option NodeData → Bool
  | some nd => nd.node_type == "gateway"
  | none => false

/-- The ids of a graph's nodes. -/
def Graph.node_ids (G : Graph) : List String := G.nodes.map Prod.fst

/-- The edges of `G` incident to the node `n` (either endpoint). -/
def Graph.incident_edges (G : Graph) (n : String) : List (String × String) :=
  G.edges.filter (fun e => e.1 == n || e.2 == n)

/-- Invariant maintained while `create_graph_from_scan_data` folds over the
device list: `gw` is a node, node ids are duplicate-free, a node carries
the gateway role exactly when it is `gw`, every node id is `gw` or a
scanned IP, every edge starts at `gw` and ends at a scanned IP, and the
edge list is duplicate-free. -/
def graph_inv (gw : String) (ips : List String) (G : Graph) : Prop :=
  gw ∈ G.node_ids ∧
  G.node_ids.Nodup ∧
  (∀ p ∈ G.nodes, is_gateway_node p.2 = true ↔ p.1 = gw) ∧
  (∀ p ∈ G.nodes, p.1 = gw ∨ p.1 ∈ ips) ∧
  (∀ e ∈ G.edges, e.1 = gw ∧ e.2 ∈ ips) ∧
  G.edges.Nodup

/-- Spec §8 Scenario B: IP `10.0.0.5 -> 10.0.0.1`, TCP `51000 -> 80`,
payload beginning `GET /`. -/
def scenario_b_frame : Frame :=
  { hasIP := true, src := "10.0.0.5", dst := "10.0.0.1", hasTCP := true
    tcp_sport := 51000, tcp_dport := 80
    raw_load := some ("GET / HTTP".data.map Char.toNat)
    hasUDP := false, udp_sport := 0, udp_dport := 0, has_dns := false
    hasICMP := false, icmp_type := 0, len := 60 }

/-- A frame with no IP layer (e.g. a bare ARP frame). -/
def non_ip_frame : Frame :=
  { hasIP := false, src := "", dst := "", hasTCP := false
    tcp_sport := 0, tcp_dport := 0, raw_load := none
    hasUDP := false, udp_sport := 0, udp_dport := 0, has_dns := false
    hasICMP := false, icmp_type := 0, len := 42 }

/-- An idle session state to instantiate theorems with. -/
def fresh_state : SnifferState := ⟨0, ⟨0, 0, 0, 0⟩, [], false⟩

/-! ## General lemmas -/

/-- String append is associative (via the underlying character lists). -/
theorem str_append_assoc (a b c : String) : a ++ b ++ c = a ++ (b ++ c) := by
  apply String.ext
  simp [String.data_append, List.append_assoc]

/-- Folding append-of-one-element over a list is `map`. -/
theorem foldl_append_singleton {α β : Type} (f : α → β) :
    ∀ (l : List α) (acc : List β),
      l.foldl (fun devices r => devices ++ [f r]) acc = acc ++ l.map f := by
  intro l
  induction l with
  | nil => simp
  | cons x xs ih => intro acc; simp [ih]

/-! ## C2 — ARP scan result contents -/

/-- C2 (counterexample): two replies from the same source IP do NOT
collapse to one device — `perform_arp_scan` appends one entry per reply,
so the claimed "no two Device entries with the same IP / later reply
overwrites" fails: this reply list yields two devices with equal IPs. -/
theorem perform_arp_scan_duplicate_ip_counterexample :
    (perform_arp_scan
        [⟨"10.0.0.5", "aa:aa:aa:aa:aa:aa"⟩, ⟨"10.0.0.5", "bb:bb:bb:bb:bb:bb"⟩]).length = 2 ∧
    ¬ ((perform_arp_scan
        [⟨"10.0.0.5", "aa:aa:aa:aa:aa:aa"⟩, ⟨"10.0.0.5", "bb:bb:bb:bb:bb:bb"⟩]).map
        Device.ip).Nodup := by
  decide

/-- C2 (amended): `perform_arp_scan` returns exactly one `Device` per reply,
in reply order, taking each reply's source IP and MAC; consequently replies
with pairwise distinct source IPs give a duplicate-free result, but
duplicate replies for one IP give duplicate entries rather than
an overwrite. -/
theorem perform_arp_scan_one_device_per_reply (result : List ArpReply) :
    (perform_arp_scan result).map Device.ip = result.map ArpReply.psrc ∧
    (perform_arp_scan result).map Device.mac = result.map ArpReply.hwsrc ∧
    (perform_arp_scan result).length = result.length := by
  have h : perform_arp_scan result =
      result.map (fun r => ⟨r.psrc, r.hwsrc, none⟩) := by
    unfold perform_arp_scan
    simpa using foldl_append_singleton (fun r : ArpReply => (⟨r.psrc, r.hwsrc, none⟩ : Device)) result []
  rw [h]
  simp [List.map_map, Function.comp]

/-! ## C5 — frames without an IP layer -/

/-- C5: every frame lacking an IP header is tagged `Other`, whatever its
other content, and its summary reports the frame's byte length. -/
theorem no_ip_frame_classified_other (st : SnifferState) (p : Frame)
    (h : p.hasIP = false) :
    (packet_handler st p).2 =
      ("Other", "Unknown Packet (" ++ toString p.len ++ " bytes)") := by
  simp [packet_handler, h, no_ip_summary]

/-- C5 witness: a concrete 42-byte non-IP frame. -/
theorem no_ip_frame_classified_other_witness :
    non_ip_frame.hasIP = false ∧
    (packet_handler fresh_state non_ip_frame).2 =
      ("Other", "Unknown Packet (42 bytes)") :=
  ⟨rfl, no_ip_frame_classified_other fresh_state non_ip_frame rfl⟩

/-! ## C7 — gateway detection heuristic -/

/-- C7: for a non-empty device list, when the `<first three octets>.1`
candidate occurs among the scanned IPs `detect_gateway` returns it, and
otherwise returns the first device's IP. -/
theorem detect_gateway_heuristic (first : Device) (rest : List Device) :
    (py_join "." ((py_split first.ip '.').take 3) ++ ".1" ∈
        (first :: rest).map Device.ip →
      detect_gateway (first :: rest) =
        py_join "." ((py_split first.ip '.').take 3) ++ ".1") ∧
    (py_join "." ((py_split first.ip '.').take 3) ++ ".1" ∉
        (first :: rest).map Device.ip →
      detect_gateway (first :: rest) = first.ip) := by
  have e : detect_gateway (first :: rest) =
      if py_join "." ((py_split first.ip '.').take 3) ++ ".1" ∈
          (first :: rest).map Device.ip then
        py_join "." ((py_split first.ip '.').take 3) ++ ".1"
      else first.ip := rfl
  constructor <;> intro h
  · rw [e, if_pos h]
  · rw [e, if_neg h]

/-- C7 witness (spec Scenario E): devices `192.168.1.1` and `192.168.1.50`
resolve the gateway to `192.168.1.1`. -/
theorem detect_gateway_heuristic_witness :
    detect_gateway
        [⟨"192.168.1.1", "11:22:33:44:55:66", none⟩,
         ⟨"192.168.1.50", "00:aa:bb:cc:dd:ee", none⟩] = "192.168.1.1" :=
  (detect_gateway_heuristic ⟨"192.168.1.1", "11:22:33:44:55:66", none⟩
    [⟨"192.168.1.50", "00:aa:bb:cc:dd:ee", none⟩]).1 (by decide)

/-! ## C8 — empty scan data -/

/-- C8: `create_topology` fails with `EmptyInput` on an empty device list
and succeeds with a graph on any non-empty one. -/
theorem create_topology_empty_input_error (local_ips : List String)
    (first : Device) (rest : List Device) :
    create_topology [] local_ips = .error .emptyInput ∧
    ∃ G, create_topology (first :: rest) local_ips = .ok G := by
  exact ⟨rfl, ⟨_, rfl⟩⟩

/-! ## C9 — classification is deterministic and state-independent -/

/-- The tag/summary part of `packet_handler` does not read the session
state. -/
theorem packet_handler_snd_state_irrel (st₁ st₂ : SnifferState) (p : Frame) :
    (packet_handler st₁ p).2 = (packet_handler st₂ p).2 := by
  simp only [packet_handler]
  split_ifs <;> rfl

/-- C9: classifying the same frame twice — in particular re-classifying it
from the state the first classification produced — yields the identical tag
and summary: the tag/summary computation does not depend on the mutable
counters accumulated from previous frames. -/
theorem packet_handler_classification_deterministic (p : Frame) (st st' : SnifferState) :
    (packet_handler (packet_handler st p).1 p).2 = (packet_handler st p).2 ∧
    (packet_handler st p).2 = (packet_handler st' p).2 :=
  ⟨packet_handler_snd_state_irrel _ _ p, packet_handler_snd_state_irrel _ _ p⟩

/-! ## C1 — stats counters sum to the packet count -/

/-- Each handler call increments the packet count by exactly one. -/
theorem packet_handler_count (st : SnifferState) (p : Frame) :
    (packet_handler st p).1.packet_count = st.packet_count + 1 := rfl

/-- Each handler call increments the sum of the four protocol counters by
exactly one. -/
theorem packet_handler_sum (st : SnifferState) (p : Frame) :
    (packet_handler st p).1.protocol_stats.sum = st.protocol_stats.sum + 1 := by
  simp only [packet_handler]
  split_ifs <;> simp [ProtocolStats.sum] <;> omega

/-- Each individual protocol counter grows by at most one per handler
call (together with `packet_handler_sum`, exactly one counter grows by
exactly one). -/
theorem packet_handler_counters (st : SnifferState) (p : Frame) :
    ((packet_handler st p).1.protocol_stats.tcp = st.protocol_stats.tcp ∨
      (packet_handler st p).1.protocol_stats.tcp = st.protocol_stats.tcp + 1) ∧
    ((packet_handler st p).1.protocol_stats.udp = st.protocol_stats.udp ∨
      (packet_handler st p).1.protocol_stats.udp = st.protocol_stats.udp + 1) ∧
    ((packet_handler st p).1.protocol_stats.icmp = st.protocol_stats.icmp ∨
      (packet_handler st p).1.protocol_stats.icmp = st.protocol_stats.icmp + 1) ∧
    ((packet_handler st p).1.protocol_stats.other = st.protocol_stats.other ∨
      (packet_handler st p).1.protocol_stats.other = st.protocol_stats.other + 1) := by
  simp only [packet_handler]
  split_ifs <;> simp

/-- Processing frames preserves `sum(stats.values()) = packet_count`. -/
theorem process_frames_inv :
    ∀ (frames : List Frame) (st : SnifferState),
      st.protocol_stats.sum = st.packet_count →
      (process_frames st frames).protocol_stats.sum =
        (process_frames st frames).packet_count := by
  intro frames
  induction frames with
  | nil => intro st h; exact h
  | cons f fs ih =>
      intro st h
      simp only [process_frames, List.foldl_cons] at ih ⊢
      exact ih _ (by rw [packet_handler_sum, packet_handler_count, h])

/-- C1: `start_sniffing` zeroes the packet count and all four protocol
counters; every handler call increments the count by exactly one and the
counter sum by exactly one (each individual counter by at most one); and
hence after any frame sequence following a start, the sum of the four
`ProtocolStats` counters equals the session's total packet count. -/
theorem protocol_stats_sum_eq_packet_count :
    (∀ st : SnifferState,
      (start_sniffing st).packet_count = 0 ∧
      (start_sniffing st).protocol_stats = ⟨0, 0, 0, 0⟩) ∧
    (∀ (st : SnifferState) (p : Frame),
      (packet_handler st p).1.packet_count = st.packet_count + 1 ∧
      (packet_handler st p).1.protocol_stats.sum = st.protocol_stats.sum + 1 ∧
      (((packet_handler st p).1.protocol_stats.tcp = st.protocol_stats.tcp ∨
        (packet_handler st p).1.protocol_stats.tcp = st.protocol_stats.tcp + 1) ∧
       ((packet_handler st p).1.protocol_stats.udp = st.protocol_stats.udp ∨
        (packet_handler st p).1.protocol_stats.udp = st.protocol_stats.udp + 1) ∧
       ((packet_handler st p).1.protocol_stats.icmp = st.protocol_stats.icmp ∨
        (packet_handler st p).1.protocol_stats.icmp = st.protocol_stats.icmp + 1) ∧
       ((packet_handler st p).1.protocol_stats.other = st.protocol_stats.other ∨
        (packet_handler st p).1.protocol_stats.other = st.protocol_stats.other + 1))) ∧
    (∀ (st : SnifferState) (frames : List Frame),
      (process_frames (start_sniffing st) frames).protocol_stats.sum =
        (process_frames (start_sniffing st) frames).packet_count) := by
  refine ⟨fun st => ⟨rfl, rfl⟩,
    fun st p => ⟨packet_handler_count st p, packet_handler_sum st p,
      packet_handler_counters st p⟩,
    fun st frames => process_frames_inv frames _ ?_⟩
  simp [start_sniffing, ProtocolStats.sum]

/-! ## C10 — percentage computations never divide by zero -/

/-- C10: the periodic snapshot's denominator is never zero (it substitutes
1 when the packet count is 0), and the final printout substitutes a
percentage of 0 when the packet count is 0, so a session with no frames
still reports valid statistics. -/
theorem stats_percentages_never_divide_by_zero (count n : Nat) :
    print_stats_total n ≠ 0 ∧
    (n = 0 → print_stats_total n = 1 ∧ stop_sniffing_pc count n = 0) := by
  constructor
  · unfold print_stats_total
    split_ifs <;> omega
  · intro h
    subst h
    exact ⟨rfl, by simp [stop_sniffing_pc]⟩

/-- C10 witness: at packet count 0 the snapshot denominator is 1 and a
final percentage with count 7 is 0. -/
theorem stats_percentages_never_divide_by_zero_witness :
    print_stats_total 0 ≠ 0 ∧ print_stats_total 0 = 1 ∧ stop_sniffing_pc 7 0 = 0 :=
  ⟨(stats_percentages_never_divide_by_zero 7 0).1,
   (stats_percentages_never_divide_by_zero 7 0).2 rfl⟩

/-! ## C3 — topology graph structure -/

/-- `classify_device` returns the `gateway` role exactly for the gateway
IP. -/
theorem classify_device_gateway_iff (ip mac vendor gateway_ip : String)
    (local_ips : List String) :
    classify_device ip mac vendor gateway_ip local_ips = "gateway" ↔ ip = gateway_ip := by
  unfold classify_device
  split_ifs with h1 h2 h3 h4
  · exact iff_of_true rfl h1
  · exact iff_of_false (by decide) h1
  · exact iff_of_false (by decide) h1
  · exact iff_of_false (by decide) h1
  · exact iff_of_false (by decide) h1

/-- `add_node` does not touch the edge list. -/
theorem add_node_edges (G : Graph) (id : String) (d : NodeData) :
    (G.add_node id d).edges = G.edges := by
  unfold Graph.add_node
  split_ifs <;> rfl

/-- Node ids after `add_node`: unchanged when the id exists, appended
otherwise. -/
theorem add_node_node_ids (G : Graph) (id : String) (d : NodeData) :
    (G.add_node id d).node_ids =
      if id ∈ G.node_ids then G.node_ids else G.node_ids ++ [id] := by
  unfold Graph.add_node Graph.node_ids
  split_ifs with h
  · rw [List.map_map]
    exact List.map_congr_left fun p _ => by by_cases hp : p.1 = id <;> simp [hp]
  · simp

/-- The added id is a node id of the result. -/
theorem mem_add_node_self (G : Graph) (id : String) (d : NodeData) :
    id ∈ (G.add_node id d).node_ids := by
  rw [add_node_node_ids]
  split_ifs with h
  · exact h
  · simp

/-- Existing node ids survive `add_node`. -/
theorem mem_add_node_of_mem (G : Graph) (id x : String) (d : NodeData)
    (h : x ∈ G.node_ids) : x ∈ (G.add_node id d).node_ids := by
  rw [add_node_node_ids]
  split_ifs <;> simp [h]

/-- `add_node` preserves duplicate-freedom of node ids. -/
theorem add_node_node_ids_nodup (G : Graph) (id : String) (d : NodeData)
    (h : G.node_ids.Nodup) : (G.add_node id d).node_ids.Nodup := by
  rw [add_node_node_ids]
  split_ifs with hm
  · exact h
  · rw [List.nodup_append]
    refine ⟨h, List.nodup_singleton _, ?_⟩
    intro a ha hb
    simp only [List.mem_singleton] at hb
    subst hb
    exact hm ha

/-- Every node entry after `add_node` is an old entry or the added one. -/
theorem mem_add_node_nodes (G : Graph) (id : String) (d : NodeData) :
    ∀ p ∈ (G.add_node id d).nodes, p ∈ G.nodes ∨ p = (id, some d) := by
  unfold Graph.add_node
  split_ifs with h
  · intro p hp
    simp only [List.mem_map] at hp
    obtain ⟨q, hq, rfl⟩ := hp
    by_cases hqid : q.1 = id
    · right
      simp [hqid]
    · left
      simpa [hqid] using hq
  · intro p hp
    rcases List.mem_append.mp hp with h1 | h1
    · exact Or.inl h1
    · right
      simpa using h1

/-- `add_edge` between existing nodes leaves the node list unchanged. -/
theorem add_edge_nodes_of_mem (G : Graph) (u v : String)
    (hu : u ∈ G.node_ids) (hv : v ∈ G.node_ids) :
    (G.add_edge u v).nodes = G.nodes := by
  unfold Graph.node_ids at hu hv
  unfold Graph.add_edge
  dsimp only
  rw [if_pos hu, if_pos hv]

/-- When every existing edge starts at `gw`, `add_edge gw v` appends the
edge `(gw, v)` unless it is already present. -/
theorem add_edge_edges_of_all_fst (G : Graph) (gw v : String)
    (hall : ∀ e ∈ G.edges, e.1 = gw) :
    (G.add_edge gw v).edges =
      if (gw, v) ∈ G.edges then G.edges else G.edges ++ [(gw, v)] := by
  unfold Graph.add_edge
  dsimp only
  have hiff : ((gw, v) ∈ G.edges ∨ (v, gw) ∈ G.edges) ↔ (gw, v) ∈ G.edges := by
    constructor
    · rintro (h | h)
      · exact h
      · have h1 : v = gw := hall _ h
        subst h1
        exact h
    · exact Or.inl
  rw [if_congr hiff rfl rfl]

/-- One step of the device fold preserves the graph invariant, makes the
device's edge to the gateway present, and preserves existing edges. -/
theorem graph_inv_step (gw : String) (lips ips : List String) (G : Graph) (d : Device)
    (hd : d.ip ∈ ips) (h : graph_inv gw ips G) :
    graph_inv gw ips ((G.add_node d.ip (device_node_data d gw lips)).add_edge gw d.ip) ∧
    (gw, d.ip) ∈ ((G.add_node d.ip (device_node_data d gw lips)).add_edge gw d.ip).edges ∧
    (∀ e ∈ G.edges,
      e ∈ ((G.add_node d.ip (device_node_data d gw lips)).add_edge gw d.ip).edges) := by
  obtain ⟨hgw, hnd, hiff, hids, hedges, hednd⟩ := h
  have h1gw : gw ∈ (G.add_node d.ip (device_node_data d gw lips)).node_ids :=
    mem_add_node_of_mem _ _ _ _ hgw
  have h1ip : d.ip ∈ (G.add_node d.ip (device_node_data d gw lips)).node_ids :=
    mem_add_node_self _ _ _
  have h1edges : (G.add_node d.ip (device_node_data d gw lips)).edges = G.edges :=
    add_node_edges _ _ _
  have hfst : ∀ e ∈ (G.add_node d.ip (device_node_data d gw lips)).edges, e.1 = gw := by
    rw [h1edges]
    exact fun e he => (hedges e he).1
  have hE := add_edge_edges_of_all_fst (G.add_node d.ip (device_node_data d gw lips))
    gw d.ip hfst
  rw [h1edges] at hE
  have hN := add_edge_nodes_of_mem (G.add_node d.ip (device_node_data d gw lips))
    gw d.ip h1gw h1ip
  have hNid : ((G.add_node d.ip (device_node_data d gw lips)).add_edge gw d.ip).node_ids =
      (G.add_node d.ip (device_node_data d gw lips)).node_ids := by
    unfold Graph.node_ids
    rw [hN]
  refine ⟨⟨?_, ?_, ?_, ?_, ?_, ?_⟩, ?_, ?_⟩
  · rw [hNid]
    exact h1gw
  · rw [hNid]
    exact add_node_node_ids_nodup _ _ _ hnd
  · intro p hp
    rw [hN] at hp
    rcases mem_add_node_nodes _ _ _ p hp with hmem | rfl
    · exact hiff p hmem
    · simp only [is_gateway_node, beq_iff_eq, device_node_data]
      exact classify_device_gateway_iff d.ip d.mac (d.vendor.getD "Unknown") gw lips
  · intro p hp
    rw [hN] at hp
    rcases mem_add_node_nodes _ _ _ p hp with hmem | rfl
    · exact hids p hmem
    · exact Or.inr hd
  · intro e he
    rw [hE] at he
    split_ifs at he with hmem
    · exact hedges e he
    · rcases List.mem_append.mp he with h1 | h1
      · exact hedges e h1
      · simp only [List.mem_singleton] at h1
        subst h1
        exact ⟨rfl, hd⟩
  · rw [hE]
    split_ifs with hmem
    · exact hednd
    · rw [List.nodup_append]
      refine ⟨hednd, List.nodup_singleton _, ?_⟩
      intro a ha hb
      simp only [List.mem_singleton] at hb
      subst hb
      exact hmem ha
  · rw [hE]
    split_ifs with hmem
    · exact hmem
    · exact List.mem_append.mpr (Or.inr (by simp))
  · intro e he
    rw [hE]
    split_ifs with hmem
    · exact he
    · exact List.mem_append.mpr (Or.inl he)

/-- Folding the whole device list from an invariant-satisfying graph keeps
the invariant, keeps existing edges, and puts every device's gateway edge
in the result. -/
theorem graph_inv_fold (gw : String) (lips ips : List String) :
    ∀ (devs : List Device) (G : Graph),
      (∀ d ∈ devs, d.ip ∈ ips) → graph_inv gw ips G →
      graph_inv gw ips
        (devs.foldl
          (fun G d => (G.add_node d.ip (device_node_data d gw lips)).add_edge gw d.ip) G) ∧
      (∀ e ∈ G.edges,
        e ∈ (devs.foldl
          (fun G d => (G.add_node d.ip (device_node_data d gw lips)).add_edge gw d.ip)
          G).edges) ∧
      (∀ d ∈ devs,
        (gw, d.ip) ∈ (devs.foldl
          (fun G d => (G.add_node d.ip (device_node_data d gw lips)).add_edge gw d.ip)
          G).edges) := by
  intro devs
  induction devs with
  | nil =>
      intro G _ h
      exact ⟨h, fun e he => he, by simp⟩
  | cons d ds ih =>
      intro G hmem h
      obtain ⟨h2inv, h2new, h2mon⟩ :=
        graph_inv_step gw lips ips G d (hmem d (by simp)) h
      obtain ⟨hinv, hmono, hall⟩ := ih _ (fun x hx => hmem x (by simp [hx])) h2inv
      simp only [List.foldl_cons]
      refine ⟨hinv, ?_, ?_⟩
      · intro e he
        exact hmono _ (h2mon e he)
      · intro x hx
        rcases List.mem_cons.mp hx with rfl | hx2
        · exact hmono _ h2new
        · exact hall x hx2

/-- A keyed node list with duplicate-free keys, the key `gw` present, and
the gateway role held exactly at key `gw`, has exactly one gateway node. -/
theorem filter_gateway_key (gw : String) :
    ∀ (l : List (String × Option NodeData)),
      (l.map Prod.fst).Nodup → gw ∈ l.map Prod.fst →
      (∀ p ∈ l, is_gateway_node p.2 = true ↔ p.1 = gw) →
      (l.filter (fun p => is_gateway_node p.2)).length = 1 := by
  intro l
  induction l with
  | nil =>
      intro _ h _
      simp at h
  | cons hd tl ih =>
      intro hnd hmem hiff
      simp only [List.map_cons, List.nodup_cons] at hnd
      by_cases hk : hd.1 = gw
      · have hg : is_gateway_node hd.2 = true := (hiff hd (by simp)).mpr hk
        have htl : tl.filter (fun p => is_gateway_node p.2) = [] := by
          rw [List.filter_eq_nil_iff]
          intro p hp hpg
          have hp1 : p.1 = gw := (hiff p (by simp [hp])).mp hpg
          exact hnd.1 (by rw [hk, ← hp1]; exact List.mem_map_of_mem Prod.fst hp)
        have hg2 : (fun p : String × Option NodeData => is_gateway_node p.2) hd = true := hg
        simp [List.filter_cons, hg2, htl]
      · have hg : ¬ is_gateway_node hd.2 = true :=
          fun hgt => hk ((hiff hd (by simp)).mp hgt)
        have hmem2 : gw ∈ tl.map Prod.fst := by
          rcases List.mem_cons.mp hmem with h | h
          · exact absurd h.symm hk
          · exact h
        have hg2 : (fun p : String × Option NodeData => is_gateway_node p.2) hd = false := by
          simpa using hg
        simp only [List.filter_cons, hg2, Bool.false_eq_true, if_false]
        exact ih hnd.2 hmem2 fun p hp => hiff p (by simp [hp])

/-- In a duplicate-free edge list whose edges all start at `gw`, the edges
incident to a node `n ≠ gw` are exactly the single edge `(gw, n)` (when
present). -/
theorem incident_filter_eq (gw n : String) :
    ∀ (l : List (String × String)),
      l.Nodup → (∀ e ∈ l, e.1 = gw) → n ≠ gw → (gw, n) ∈ l →
      l.filter (fun e => e.1 == n || e.2 == n) = [(gw, n)] := by
  intro l
  induction l with
  | nil =>
      intro _ _ _ h
      simp at h
  | cons hd tl ih =>
      intro hnd hall hne hmem
      rw [List.nodup_cons] at hnd
      have hhd1 : hd.1 = gw := hall hd (by simp)
      by_cases hh : hd = (gw, n)
      · subst hh
        have htl : tl.filter (fun e => e.1 == n || e.2 == n) = [] := by
          rw [List.filter_eq_nil_iff]
          intro e he hp
          have he1 : e.1 = gw := hall e (by simp [he])
          simp only [Bool.or_eq_true, beq_iff_eq] at hp
          rcases hp with hp | hp
          · rw [hp] at he1
            exact hne he1
          · have heq : e = (gw, n) := by
              obtain ⟨e1, e2⟩ := e
              simp_all
            exact hnd.1 (heq ▸ he)
        simp [List.filter_cons, htl]
      · have h1 : ¬ hd.1 = n := by
          rw [hhd1]
          exact fun hgn => hne hgn.symm
        have h2 : ¬ hd.2 = n := by
          intro h2
          apply hh
          obtain ⟨a, b⟩ := hd
          simp_all
        have hp2 : (fun e : String × String => e.1 == n || e.2 == n) hd = false := by
          simp [h1, h2]
        simp only [List.filter_cons, hp2, Bool.false_eq_true, if_false]
        apply ih hnd.2 (fun e he => hall e (by simp [he])) hne
        rcases List.mem_cons.mp hmem with h | h
        · exact absurd h.symm hh
        · exact h

/-- The detected gateway is always one of the scanned devices' IPs. -/
theorem detect_gateway_mem (first : Device) (rest : List Device) :
    detect_gateway (first :: rest) ∈ (first :: rest).map Device.ip := by
  have e : detect_gateway (first :: rest) =
      if py_join "." ((py_split first.ip '.').take 3) ++ ".1" ∈
          (first :: rest).map Device.ip then
        py_join "." ((py_split first.ip '.').take 3) ++ ".1"
      else first.ip := rfl
  rw [e]
  split_ifs with h
  · exact h
  · simp

/-- C3 (counterexample): the claim "no self-loops" fails.  For the single
scanned device `192.168.1.7` the detected gateway is that device itself,
and the built graph contains the self-loop edge
`(192.168.1.7, 192.168.1.7)`. -/
theorem create_graph_gateway_self_loop_counterexample :
    detect_gateway [⟨"192.168.1.7", "aa:bb:cc:dd:ee:ff", none⟩] = "192.168.1.7" ∧
    ("192.168.1.7", "192.168.1.7") ∈
      (create_graph_from_scan_data [⟨"192.168.1.7", "aa:bb:cc:dd:ee:ff", none⟩] []).edges := by
  decide

/-- C3 (amended): for every non-empty device list the graph has exactly one
gateway node; every edge has the gateway as its first endpoint (so there
are no peer-to-peer edges); every device IP gets its edge to the gateway;
the edge list is duplicate-free; and every non-gateway node has exactly
one incident edge, `(gateway, node)`.  However, because the detected
gateway IP is always one of the scanned IPs, the graph also always
contains the self-loop `(gateway, gateway)` — the one departure from the
claimed star shape. -/
theorem create_graph_star_with_gateway_self_loop (first : Device)
    (rest : List Device) (local_ips : List String) :
    ((create_graph_from_scan_data (first :: rest) local_ips).nodes.filter
        (fun p => is_gateway_node p.2)).length = 1 ∧
    (detect_gateway (first :: rest), detect_gateway (first :: rest)) ∈
      (create_graph_from_scan_data (first :: rest) local_ips).edges ∧
    (∀ e ∈ (create_graph_from_scan_data (first :: rest) local_ips).edges,
      e.1 = detect_gateway (first :: rest) ∧ e.2 ∈ (first :: rest).map Device.ip) ∧
    (∀ ip ∈ (first :: rest).map Device.ip,
      (detect_gateway (first :: rest), ip) ∈
        (create_graph_from_scan_data (first :: rest) local_ips).edges) ∧
    (create_graph_from_scan_data (first :: rest) local_ips).edges.Nodup ∧
    (∀ n ∈ (create_graph_from_scan_data (first :: rest) local_ips).node_ids,
      n ≠ detect_gateway (first :: rest) →
      (create_graph_from_scan_data (first :: rest) local_ips).incident_edges n =
        [(detect_gateway (first :: rest), n)]) := by
  have hunfold : create_graph_from_scan_data (first :: rest) local_ips =
      (first :: rest).foldl
        (fun G d =>
          (G.add_node d.ip
            (device_node_data d (detect_gateway (first :: rest)) local_ips)).add_edge
            (detect_gateway (first :: rest)) d.ip)
        (Graph.add_node ⟨[], []⟩ (detect_gateway (first :: rest))
          (gateway_node_data (detect_gateway (first :: rest)))) := rfl
  have h0nodes : (Graph.add_node ⟨[], []⟩ (detect_gateway (first :: rest))
      (gateway_node_data (detect_gateway (first :: rest)))).nodes =
      [(detect_gateway (first :: rest),
        some (gateway_node_data (detect_gateway (first :: rest))))] := by
    simp [Graph.add_node]
  have h0 : graph_inv (detect_gateway (first :: rest))
      ((first :: rest).map Device.ip)
      (Graph.add_node ⟨[], []⟩ (detect_gateway (first :: rest))
        (gateway_node_data (detect_gateway (first :: rest)))) := by
    refine ⟨?_, ?_, ?_, ?_, ?_, ?_⟩
    · simp [Graph.node_ids, h0nodes]
    · simp [Graph.node_ids, h0nodes]
    · intro p hp
      rw [h0nodes] at hp
      simp only [List.mem_singleton] at hp
      subst hp
      simp [is_gateway_node, gateway_node_data]
    · intro p hp
      rw [h0nodes] at hp
      simp only [List.mem_singleton] at hp
      subst hp
      exact Or.inl rfl
    · intro e he
      simp [Graph.add_node] at he
    · simp [Graph.add_node]
  obtain ⟨hinv, _hmono, hall⟩ :=
    graph_inv_fold (detect_gateway (first :: rest)) local_ips
      ((first :: rest).map Device.ip) (first :: rest) _
      (fun d hd => List.mem_map_of_mem Device.ip hd) h0
  rw [← hunfold] at hinv hall
  obtain ⟨hgw, hnd, hiff, hids, hedges, hednd⟩ := hinv
  have hedge_of_ip : ∀ ip ∈ (first :: rest).map Device.ip,
      (detect_gateway (first :: rest), ip) ∈
        (create_graph_from_scan_data (first :: rest) local_ips).edges := by
    intro ip hip
    obtain ⟨d, hd, rfl⟩ := List.mem_map.mp hip
    exact hall d hd
  refine ⟨?_, ?_, hedges, hedge_of_ip, hednd, ?_⟩
  · exact filter_gateway_key _ _ hnd hgw hiff
  · exact hedge_of_ip _ (detect_gateway_mem first rest)
  · intro n hn hne
    have hnip : n ∈ (first :: rest).map Device.ip := by
      unfold Graph.node_ids at hn
      obtain ⟨p, hp, rfl⟩ := List.mem_map.mp hn
      rcases hids p hp with h | h
      · exact absurd h hne
      · exact h
    exact incident_filter_eq _ n _ hednd (fun e he => (hedges e he).1) hne
      (hedge_of_ip n hnip)

/-- C3 witness: the binder-free parts of the amended statement at the
one-device list `192.168.1.7` — one gateway node, the gateway self-loop
present, duplicate-free edges. -/
theorem create_graph_star_with_gateway_self_loop_witness :
    ((create_graph_from_scan_data [⟨"192.168.1.7", "aa:bb:cc:dd:ee:ff", none⟩] []).nodes.filter
        (fun p => is_gateway_node p.2)).length = 1 ∧
    (detect_gateway [⟨"192.168.1.7", "aa:bb:cc:dd:ee:ff", none⟩],
      detect_gateway [⟨"192.168.1.7", "aa:bb:cc:dd:ee:ff", none⟩]) ∈
      (create_graph_from_scan_data [⟨"192.168.1.7", "aa:bb:cc:dd:ee:ff", none⟩] []).edges ∧
    (create_graph_from_scan_data [⟨"192.168.1.7", "aa:bb:cc:dd:ee:ff", none⟩] []).edges.Nodup :=
  ⟨(create_graph_star_with_gateway_self_loop ⟨"192.168.1.7", "aa:bb:cc:dd:ee:ff", none⟩ [] []).1,
   (create_graph_star_with_gateway_self_loop ⟨"192.168.1.7", "aa:bb:cc:dd:ee:ff", none⟩ [] []).2.1,
   (create_graph_star_with_gateway_self_loop ⟨"192.168.1.7", "aa:bb:cc:dd:ee:ff", none⟩ [] []).2.2.2.2.1⟩

/-! ## C4 and C6 — the HTTP sub-parse -/

/-- A string containing one of the HTTP tokens is non-empty. -/
theorem contains_http_token_ne_nil (s : String) (h : contains_http_token s = true) :
    s.data ≠ [] := by
  intro hnil
  unfold contains_http_token py_in at h
  simp only [List.any_cons, List.any_nil, Bool.or_eq_true, decide_eq_true_eq,
    Bool.or_false] at h
  rcases h with h | h | h <;> rw [hnil, List.infix_nil] at h <;>
    exact absurd h (by decide)

/-- `py_splitlines_go` (started outside a `"\r\n"` boundary) returns at
least one line unless both the input and the accumulator are exhausted. -/
theorem py_splitlines_go_ne_nil :
    ∀ (s acc : List Char), s ≠ [] ∨ acc ≠ [] → py_splitlines_go false s acc ≠ [] := by
  intro s
  induction s with
  | nil =>
      intro acc h
      rcases h with h | h
      · exact absurd rfl h
      · simp [py_splitlines_go, List.isEmpty_iff, h]
  | cons c rest ih =>
      intro acc _
      by_cases hr : c = '\r'
      · simp [py_splitlines_go, hr]
      · by_cases hb : py_linebreak c
        · simp [py_splitlines_go, hr, hb]
        · simpa [py_splitlines_go, hr, hb] using ih (c :: acc) (Or.inr (by simp))

/-- A non-empty string has a first line. -/
theorem py_splitlines_head (s : String) (h : s.data ≠ []) :
    ∃ line tl, py_splitlines s = line :: tl := by
  have hne : py_splitlines s ≠ [] := by
    unfold py_splitlines
    intro hmap
    exact py_splitlines_go_ne_nil s.data [] (Or.inl h) (List.map_eq_nil_iff.mp hmap)
  obtain ⟨line, tl, hcons⟩ := List.exists_cons_of_ne_nil hne
  exact ⟨line, tl, hcons⟩

/-- When the decoded payload contains an HTTP token, the guarded sub-parse
succeeds and appends `" [HTTP] "` followed by the payload's first line. -/
theorem http_part_spec (load : List Nat)
    (h : contains_http_token (decode_ignore load) = true) :
    ∃ line, (py_splitlines (decode_ignore load)).head? = some line ∧
      http_part load = " [HTTP] " ++ line := by
  obtain ⟨line, tl, hcons⟩ :=
    py_splitlines_head _ (contains_http_token_ne_nil _ h)
  have ht : http_try load = .ok (" [HTTP] " ++ line) := by
    unfold http_try
    rw [hcons]
    simp [h]
  refine ⟨line, by rw [hcons]; rfl, ?_⟩
  unfold http_part
  rw [ht]

/-- C4: a frame with IP and TCP headers, port 80 on either side, and a raw
payload whose permissive decoding contains an HTTP token is tagged `TCP`,
and its summary embeds the payload's first line tagged `[HTTP]`. -/
theorem tcp_port80_http_tagging (st : SnifferState) (p : Frame) (load : List Nat)
    (hip : p.hasIP = true) (htcp : p.hasTCP = true)
    (hport : p.tcp_dport = 80 ∨ p.tcp_sport = 80)
    (hraw : p.raw_load = some load)
    (htok : contains_http_token (decode_ignore load) = true) :
    (packet_handler st p).2.1 = "TCP" ∧
    ∃ line, (py_splitlines (decode_ignore load)).head? = some line ∧
      ∃ pre post, (packet_handler st p).2.2 = pre ++ "[HTTP] " ++ line ++ post := by
  obtain ⟨line, hline, hpart⟩ := http_part_spec load htok
  have hh : (packet_handler st p).2 =
      ("TCP", tcp_base_summary p ++ http_sel p ++ https_tag p) := by
    simp [packet_handler, hip, htcp]
  have hsel : http_sel p = " [HTTP] " ++ line := by
    unfold http_sel
    rw [if_pos hport, hraw]
    exact hpart
  refine ⟨by rw [hh], line, hline, tcp_base_summary p ++ " ", https_tag p, ?_⟩
  rw [hh]
  show tcp_base_summary p ++ http_sel p ++ https_tag p = _
  rw [hsel]
  apply String.ext
  have hsplit : (" [HTTP] " : String).data =
      (" " : String).data ++ ("[HTTP] " : String).data := rfl
  simp only [String.data_append, hsplit, List.append_assoc]
  rfl

/-- C4 witness (spec Scenario B): TCP `51000 -> 80` with payload
`GET / HTTP` is tagged `TCP` and its summary carries
`[HTTP] GET / HTTP` (so it contains `[HTTP] GET /`). -/
theorem tcp_port80_http_tagging_witness :
    ((packet_handler fresh_state scenario_b_frame).2.1 = "TCP" ∧
      ∃ line,
        (py_splitlines (decode_ignore ("GET / HTTP".data.map Char.toNat))).head? =
          some line ∧
        ∃ pre post, (packet_handler fresh_state scenario_b_frame).2.2 =
          pre ++ "[HTTP] " ++ line ++ post) ∧
    (packet_handler fresh_state scenario_b_frame).2.2 =
      "TCP 10.0.0.5:51000 -> 10.0.0.1:80 [HTTP] GET / HTTP" :=
  ⟨tcp_port80_http_tagging fresh_state scenario_b_frame
      ("GET / HTTP".data.map Char.toNat) rfl rfl (Or.inl rfl) rfl (by decide),
    by decide⟩

/-- The swallowed HTTP selection agrees with its exception-transparent
variant wherever the latter succeeds, and is empty where it fails. -/
theorem http_sel_swallow (p : Frame) :
    http_sel p = match http_sel_exc p with
      | .ok s => s
      | .error _ => "" := by
  unfold http_sel http_sel_exc
  split_ifs with h
  · cases p.raw_load with
    | none => rfl
    | some load => rfl
  · rfl

/-- C6: `packet_handler` never lets a failure of the optional HTTP
sub-parse escape: wherever the exception-transparent classifier
`classify_exc` succeeds the handler reports exactly its tag and summary,
and wherever it would raise, the handler still returns the `TCP` tag with
the base summary, simply omitting the `[HTTP]` tag. -/
theorem classifier_never_propagates_subparse_failure (st : SnifferState) (p : Frame) :
    match classify_exc p with
    | .ok ts => (packet_handler st p).2 = ts
    | .error _ =>
        (packet_handler st p).2 = ("TCP", tcp_base_summary p ++ https_tag p) := by
  have hsel := http_sel_swallow p
  cases hip : p.hasIP with
  | false => simp [classify_exc, packet_handler, hip]
  | true =>
    cases htcp : p.hasTCP with
    | true =>
      cases hexc : http_sel_exc p with
      | ok http =>
          rw [hexc] at hsel
          simp [classify_exc, packet_handler, hip, htcp, hexc, hsel]
      | error e =>
          rw [hexc] at hsel
          simp [classify_exc, packet_handler, hip, htcp, hexc, hsel,
            String.append_empty]
    | false =>
      cases hudp : p.hasUDP with
      | true => simp [classify_exc, packet_handler, hip, htcp, hudp]
      | false =>
          cases hicmp : p.hasICMP <;>
            simp [classify_exc, packet_handler, hip, htcp, hudp, hicmp]

/-- C6 witness: the swallow relation instantiated at Scenario B's frame. -/
theorem classifier_never_propagates_subparse_failure_witness :
    match classify_exc scenario_b_frame with
    | .ok ts => (packet_handler fresh_state scenario_b_frame).2 = ts
    | .error _ =>
        (packet_handler fresh_state scenario_b_frame).2 =
          ("TCP", tcp_base_summary scenario_b_frame ++ https_tag scenario_b_frame) :=
  classifier_never_propagates_subparse_failure fresh_state scenario_b_frame

end NetworkAnalyzer
